import Mathlib

/-!
Shallow embedding of the SafeZone frame-annotation pipeline
(`src/utils/videoProcessor.ts` + `modelLoader.ts`, the stats aggregators of
`src/pages/VideoDetectionPage.tsx` and `src/pages/LiveWebcamPage.tsx`, and the
webcam hook `src/hooks/useWebcam.ts`), with theorems checking the
natural-language specification against this embedding.

Numeric values (confidences, coordinates) are modelled as exact rationals.
-/

/-- The `Detection` interface of `modelLoader.ts`: `bbox` is the tuple
`[x, y, width, height]` (here four fields `x y w h`), `class` (a reserved word
in Lean, embedded as `cls`) is the label string, `confidence` a number. -/
structure Detection where
  x : ℚ
  y : ℚ
  w : ℚ
  h : ℚ
  cls : String
  confidence : ℚ
deriving DecidableEq, Inhabited, Repr

/-- The `stats` record set by `updateStats` in `VideoDetectionPage.tsx`. -/
structure Stats where
  totalDetections : ℕ
  safeWorkers : ℕ
  violations : ℕ
  avgConfidence : ℚ
deriving DecidableEq, Repr

/-- The `detectionStats` record set by `updateDetectionStats` in
`LiveWebcamPage.tsx`; its confidence field is named `confidence` there. -/
structure DetectionStats where
  totalDetections : ℕ
  safeWorkers : ℕ
  violations : ℕ
  confidence : ℚ
deriving DecidableEq, Repr

/-- `updateStats` from `VideoDetectionPage.tsx` lines 116–134: counts the
batch, averages confidences (0 for an empty batch), sets the safe flag when a
helmet and a jacket are both present, the violation flag when there are
detections but the safe flag is 0, and stores the average scaled by 100. -/
def updateStats (newDetections : List Detection) : Stats :=
  let totalDetections := newDetections.length
  let avgConfidence : ℚ :=
    if 0 < totalDetections then
      (newDetections.map (fun det => det.confidence)).sum / totalDetections
    else 0
  let hasHelmet := newDetections.any (fun det => det.cls == "Protective Helmet")
  let hasJacket := newDetections.any (fun det => det.cls == "Safety Jacket")
  let safeWorkers : ℕ := if hasHelmet && hasJacket then 1 else 0
  let violations : ℕ := if 0 < totalDetections ∧ safeWorkers = 0 then 1 else 0
  { totalDetections := totalDetections
    safeWorkers := safeWorkers
    violations := violations
    avgConfidence := avgConfidence * 100 }

/-- `updateDetectionStats` from `LiveWebcamPage.tsx` lines 71–89, textually the
same computation as `updateStats` up to the name of the confidence field. -/
def updateDetectionStats (newDetections : List Detection) : DetectionStats :=
  let totalDetections := newDetections.length
  let avgConfidence : ℚ :=
    if 0 < totalDetections then
      (newDetections.map (fun det => det.confidence)).sum / totalDetections
    else 0
  let hasHelmet := newDetections.any (fun det => det.cls == "Protective Helmet")
  let hasJacket := newDetections.any (fun det => det.cls == "Safety Jacket")
  let safeWorkers : ℕ := if hasHelmet && hasJacket then 1 else 0
  let violations : ℕ := if 0 < totalDetections ∧ safeWorkers = 0 then 1 else 0
  { totalDetections := totalDetections
    safeWorkers := safeWorkers
    violations := violations
    confidence := avgConfidence * 100 }

/-- C1: both aggregators set the safe flag to 1 exactly when the batch holds at
least one detection of class "Protective Helmet" and at least one of class
"Safety Jacket" (else 0), and the violation flag to 1 exactly when the batch is
non-empty and the safe flag is 0 (else 0). -/
theorem updateStats_safe_violation (ds : List Detection) :
    ((updateStats ds).safeWorkers =
      if (∃ d ∈ ds, d.cls = "Protective Helmet") ∧ (∃ d ∈ ds, d.cls = "Safety Jacket")
      then 1 else 0) ∧
    ((updateStats ds).violations =
      if 0 < (updateStats ds).totalDetections ∧ (updateStats ds).safeWorkers = 0
      then 1 else 0) ∧
    ((updateDetectionStats ds).safeWorkers = (updateStats ds).safeWorkers ∧
     (updateDetectionStats ds).violations = (updateStats ds).violations ∧
     (updateDetectionStats ds).totalDetections = (updateStats ds).totalDetections) := by
  simp only [updateStats, updateDetectionStats, List.any_eq_true, beq_iff_eq,
    Bool.and_eq_true, decide_eq_true_eq]
  exact ⟨trivial, trivial, trivial, trivial, trivial⟩

/-- C4: on the empty batch both aggregators return all-zero stats. -/
theorem updateStats_empty :
    updateStats [] = ⟨0, 0, 0, 0⟩ ∧ updateDetectionStats [] = ⟨0, 0, 0, 0⟩ := by
  constructor <;> simp [updateStats, updateDetectionStats]

/-- A one-detection batch with confidence 4/5, refuting the unscaled-mean
reading of the average-confidence field. -/
def percentBatch : List Detection :=
  [{ x := 0, y := 0, w := 50, h := 50, cls := "Dust Mask", confidence := 4/5 }]

/-- C2 counterexample: on the batch with the single confidence 4/5 the stored
average-confidence field is 80 (the mean scaled by 100), which is not within
1e-9 of the arithmetic mean 4/5. -/
theorem updateStats_avg_not_mean :
    (updateStats percentBatch).avgConfidence = 80 ∧
    ¬ |(updateStats percentBatch).avgConfidence - 4 / 5| < 1 / 1000000000 := by
  have h : (updateStats percentBatch).avgConfidence = 80 := by
    norm_num [updateStats, percentBatch]
  rw [h]
  norm_num
  rw [abs_of_nonneg (by norm_num)]
  norm_num

/-- C2 amended: the average-confidence field of both aggregators stores 100 ×
the exact arithmetic mean of the batch's confidences (a percentage), and 0 for
the empty batch. -/
theorem updateStats_avg_percent (ds : List Detection) :
    (updateStats ds).avgConfidence =
      (if ds = [] then 0
       else 100 * ((ds.map (fun det => det.confidence)).sum / ds.length)) ∧
    (updateDetectionStats ds).confidence = (updateStats ds).avgConfidence := by
  rcases ds with _ | ⟨d, tl⟩
  · simp [updateStats, updateDetectionStats]
  · simp [updateStats, updateDetectionStats, mul_comm]

/-- The fixed stroke-color palette of `VideoProcessor.drawDetections`. -/
def colors : List String :=
  ["#3B82F6", "#10B981", "#8B5CF6", "#F59E0B", "#EF4444", "#6366F1", "#EC4899"]

/-- One box as laid out by `drawDetections`: scaled coordinates plus the chosen
stroke color. -/
structure DrawnBox where
  x : ℚ
  y : ℚ
  w : ℚ
  h : ℚ
  color : String
deriving DecidableEq, Inhabited, Repr

/-- `VideoProcessor.drawDetections` (videoProcessor.ts lines 69–110), reduced
to its geometry: each detection's bbox is divided by 640 and scaled by the
canvas dimensions (x, width by the canvas width; y, height by the canvas
height), and the box is stroked in `colors[index % colors.length]`. -/
def drawDetections (detections : List Detection) (canvasWidth canvasHeight : ℚ) :
    List DrawnBox :=
  detections.enum.map fun p =>
    { x := p.2.x / 640 * canvasWidth
      y := p.2.y / 640 * canvasHeight
      w := p.2.w / 640 * canvasWidth
      h := p.2.h / 640 * canvasHeight
      color := colors.getD (p.1 % colors.length) "" }

/-- C7: the box drawn for the detection at index `i` has x and width multiplied
by canvasWidth/640, y and height multiplied by canvasHeight/640, and the
palette color at index `i mod 7`, the palette having exactly 7 entries. -/
theorem drawDetections_scale_color (ds : List Detection) (W H : ℚ) (i : ℕ)
    (hi : i < ds.length) :
    colors.length = 7 ∧
    (drawDetections ds W H).length = ds.length ∧
    (drawDetections ds W H).getD i default =
      { x := (ds.getD i default).x * (W / 640)
        y := (ds.getD i default).y * (H / 640)
        w := (ds.getD i default).w * (W / 640)
        h := (ds.getD i default).h * (H / 640)
        color := colors.getD (i % 7) "" } := by
  have hlen : (drawDetections ds W H).length = ds.length := by
    simp [drawDetections]
  refine ⟨rfl, hlen, ?_⟩
  have hi2 : i < (drawDetections ds W H).length := by omega
  rw [List.getD_eq_getElem _ _ hi2, List.getD_eq_getElem _ _ hi]
  simp only [drawDetections, List.getElem_map, List.getElem_enum, DrawnBox.mk.injEq]
  refine ⟨by ring, by ring, by ring, by ring, rfl⟩

/-- C7 witness: instantiation at a concrete one-element batch and canvas. -/
theorem drawDetections_scale_color_witness :
    colors.length = 7 ∧
    (drawDetections percentBatch 1280 720).length = percentBatch.length ∧
    (drawDetections percentBatch 1280 720).getD 0 default =
      { x := (percentBatch.getD 0 default).x * (1280 / 640)
        y := (percentBatch.getD 0 default).y * (720 / 640)
        w := (percentBatch.getD 0 default).w * (1280 / 640)
        h := (percentBatch.getD 0 default).h * (720 / 640)
        color := colors.getD (0 % 7) "" } :=
  drawDetections_scale_color percentBatch 1280 720 0 (by decide)

/-- The fixed `classNames` list of `YOLODetector` in `modelLoader.ts`. -/
def classNames : List String :=
  ["Protective Helmet", "Safety Jacket", "Protective Gloves", "Dust Mask",
   "Eye Wear", "Safety Boots", "Shield"]

/-- One iteration of the loop body of `generateMockDetections`: six pseudo
random draws (class index, confidence, then bbox x, y, width, height), taken
from the random stream `r` at positions `base` through `base + 5`. -/
def mockDetection (r : ℕ → ℚ) (base : ℕ) : Detection :=
  { x := r (base + 2) * 400
    y := r (base + 3) * 300
    w := 50 + r (base + 4) * 100
    h := 50 + r (base + 5) * 100
    cls := classNames.getD (⌊r base * (classNames.length : ℚ)⌋).toNat ""
    confidence := 1 / 2 + r (base + 1) * (1 / 2) }

/-- `generateMockDetections` (modelLoader.ts lines 196–217): draws
`floor(r 0 * 4) + 1` detections, detection `i` consuming the six stream values
at positions `1 + 6 i` through `6 + 6 i`. -/
def generateMockDetections (r : ℕ → ℚ) : List Detection :=
  let numDetections := (⌊r 0 * 4⌋).toNat + 1
  (List.range numDetections).map fun i => mockDetection r (1 + 6 * i)

/-- `YOLODetector.detect` (modelLoader.ts lines 172–194): throws when no model
is loaded; otherwise runs inside a try/catch that, on an internal fault, logs
and returns the empty list, and on the fault-free path returns the mock
detections. The first component is the returned value (with `Except.error`
standing for a thrown exception), the second records whether the internal
catch logged an error. -/
def detect (modelLoaded fault : Bool) (r : ℕ → ℚ) :
    Except String (List Detection) × Bool :=
  if modelLoaded = false then (Except.error "Model not loaded", false)
  else if fault then (Except.ok [], true)
  else (Except.ok (generateMockDetections r), false)

/-- State of the `YOLODetector` singleton: `model` is null until a load
succeeds. -/
structure DetectorState where
  model : Option Unit
deriving DecidableEq, Repr

/-- `YOLODetector.loadModel` (modelLoader.ts lines 138–156): the whole body sits
in a try/catch; on success the model field is set and `true` is returned, on
any failure inside the try the error is caught and `false` is returned with the
model field untouched. `createResult` stands for the awaited outcome of the
body (the simulated delay plus `createDummyModel`). -/
def loadModel (s : DetectorState) (createResult : Except String Unit) :
    DetectorState × Bool :=
  match createResult with
  | Except.ok m => ({ model := some m }, true)
  | Except.error _ => (s, false)

/-- `YOLODetector.isLoaded` (modelLoader.ts lines 223–225): `model !== null`. -/
def isLoaded (s : DetectorState) : Bool :=
  s.model.isSome

/-- C8: `loadModel` always returns a boolean rather than propagating the
failure: `true` exactly when initialization succeeded, `false` exactly when it
failed; afterwards `isLoaded` reports whether a model is present, and in
particular a successful load leaves the detector loaded. -/
theorem loadModel_total_boolean (s : DetectorState) (res : Except String Unit) :
    ((loadModel s res).2 = true ↔ res = Except.ok ()) ∧
    ((loadModel s res).2 = false ↔ ∃ e, res = Except.error e) ∧
    isLoaded (loadModel s res).1 = (loadModel s res).1.model.isSome ∧
    ((loadModel s res).2 = true → isLoaded (loadModel s res).1 = true) := by
  rcases res with e | u
  · simp [loadModel, isLoaded]
  · simp [loadModel, isLoaded]

/-- Bounds of a single mock detection when every stream value lies in [0,1). -/
theorem mockDetection_bounds (r : ℕ → ℚ) (h : ∀ n, 0 ≤ r n ∧ r n < 1) (b : ℕ) :
    (1 / 2 ≤ (mockDetection r b).confidence ∧ (mockDetection r b).confidence < 1) ∧
    (mockDetection r b).cls ∈ classNames ∧
    (0 ≤ (mockDetection r b).x ∧ (mockDetection r b).x < 400) ∧
    (0 ≤ (mockDetection r b).y ∧ (mockDetection r b).y < 300) ∧
    (50 ≤ (mockDetection r b).w ∧ (mockDetection r b).w < 150) ∧
    (50 ≤ (mockDetection r b).h ∧ (mockDetection r b).h < 150) := by
  obtain ⟨hi0, hi1⟩ := h b
  obtain ⟨hc0, hc1⟩ := h (b + 1)
  obtain ⟨hx0, hx1⟩ := h (b + 2)
  obtain ⟨hy0, hy1⟩ := h (b + 3)
  obtain ⟨hw0, hw1⟩ := h (b + 4)
  obtain ⟨hh0, hh1⟩ := h (b + 5)
  have hidx : (⌊r b * (classNames.length : ℚ)⌋).toNat < classNames.length := by
    have h7 : ⌊r b * ((7 : ℕ) : ℚ)⌋ < 7 := Int.floor_lt.mpr (by push_cast; nlinarith)
    have hl : classNames.length = 7 := rfl
    rw [hl]
    omega
  refine ⟨⟨?_, ?_⟩, ?_, ⟨?_, ?_⟩, ⟨?_, ?_⟩, ⟨?_, ?_⟩, ⟨?_, ?_⟩⟩
  · simp only [mockDetection]; linarith
  · simp only [mockDetection]; linarith
  · show classNames.getD _ "" ∈ classNames
    rw [List.getD_eq_getElem _ _ hidx]
    exact List.getElem_mem hidx
  · simp only [mockDetection]; nlinarith
  · simp only [mockDetection]; linarith
  · simp only [mockDetection]; nlinarith
  · simp only [mockDetection]; linarith
  · simp only [mockDetection]; nlinarith
  · simp only [mockDetection]; linarith
  · simp only [mockDetection]; nlinarith
  · simp only [mockDetection]; linarith

/-- C10: with the model loaded and no internal fault, `detect` returns the mock
batch, which holds between 1 and 4 detections (never the empty list), each with
confidence in [1/2, 1), class drawn from the 7-element class-name list, x in
[0, 400), y in [0, 300), and width and height in [50, 150). -/
theorem detect_success_bounds (r : ℕ → ℚ) (h : ∀ n, 0 ≤ r n ∧ r n < 1) :
    (detect true false r).1 = Except.ok (generateMockDetections r) ∧
    1 ≤ (generateMockDetections r).length ∧
    (generateMockDetections r).length ≤ 4 ∧
    generateMockDetections r ≠ [] ∧
    ∀ d ∈ generateMockDetections r,
      (1 / 2 ≤ d.confidence ∧ d.confidence < 1) ∧
      d.cls ∈ classNames ∧
      (0 ≤ d.x ∧ d.x < 400) ∧
      (0 ≤ d.y ∧ d.y < 300) ∧
      (50 ≤ d.w ∧ d.w < 150) ∧
      (50 ≤ d.h ∧ d.h < 150) := by
  have hfloor : (⌊r 0 * 4⌋).toNat ≤ 3 := by
    obtain ⟨h0, h1⟩ := h 0
    have h4 : ⌊r 0 * (4 : ℚ)⌋ < ((4 : ℕ) : ℤ) := Int.floor_lt.mpr (by push_cast; nlinarith)
    omega
  refine ⟨rfl, ?_, ?_, ?_, ?_⟩
  · simp [generateMockDetections]
  · simp only [generateMockDetections, List.length_map, List.length_range]
    omega
  · simp [generateMockDetections]
  · intro d hd
    simp only [generateMockDetections, List.mem_map, List.mem_range] at hd
    obtain ⟨i, _, rfl⟩ := hd
    exact mockDetection_bounds r h (1 + 6 * i)

/-- The constant random stream 1/2, used to instantiate the mock-detection
bounds at a concrete input. -/
def halfStream : ℕ → ℚ := fun _ => 1 / 2

/-- C10 witness: instantiation of the mock-detection bounds at the constant
stream 1/2. -/
theorem detect_success_bounds_witness :
    (∀ n, 0 ≤ halfStream n ∧ halfStream n < 1) ∧
    ((detect true false halfStream).1 = Except.ok (generateMockDetections halfStream) ∧
     1 ≤ (generateMockDetections halfStream).length ∧
     (generateMockDetections halfStream).length ≤ 4 ∧
     generateMockDetections halfStream ≠ [] ∧
     ∀ d ∈ generateMockDetections halfStream,
       (1 / 2 ≤ d.confidence ∧ d.confidence < 1) ∧
       d.cls ∈ classNames ∧
       (0 ≤ d.x ∧ d.x < 400) ∧
       (0 ≤ d.y ∧ d.y < 300) ∧
       (50 ≤ d.w ∧ d.w < 150) ∧
       (50 ≤ d.h ∧ d.h < 150)) :=
  have hh : ∀ n, 0 ≤ halfStream n ∧ halfStream n < 1 := fun _ => by
    constructor <;> norm_num [halfStream]
  ⟨hh, detect_success_bounds halfStream hh⟩

/-- The readiness flags of the video element driving `processFrame`. -/
structure Video where
  paused : Bool
  ended : Bool
deriving DecidableEq, Repr

/-- Outcome of an awaited `yoloDetector.detect` call as observed by
`processFrame`: the promise resolves with a batch, or it rejects. -/
inductive DetectOutcome
  | success : List Detection → DetectOutcome
  | failure : DetectOutcome
deriving DecidableEq, Repr

/-- Observable state of one `VideoProcessor.processVideo` run: `animationId`
is the pending `requestAnimationFrame` handle, `inFlight` holds between the
start of a tick's `await detect` and its resolution, `renderCalls` and
`statsCalls` count the invocations of `drawDetections` and of the
`onDetection` callback, `loggedErrors` counts the hits of the tick-level
catch, `stats` is the last record set through `onDetection` (which applies
`updateStats`), and `nextId` supplies fresh handles. -/
structure PipelineState where
  animationId : Option ℕ
  inFlight : Bool
  renderCalls : ℕ
  statsCalls : ℕ
  loggedErrors : ℕ
  stats : Option Stats
  nextId : ℕ
deriving DecidableEq, Repr

/-- The synchronous prefix of `processFrame` (videoProcessor.ts lines 20–34),
run when the scheduler fires the pending handle: the handle is consumed by
firing; if the video is paused or ended the function returns at once,
scheduling nothing; otherwise the frame is captured and the detect promise is
started — the tick's one suspension point. -/
def fireTick (s : PipelineState) (v : Video) : PipelineState :=
  match s.animationId with
  | none => s
  | some _ =>
    let s1 := { s with animationId := none }
    if v.paused || v.ended then s1
    else { s1 with inFlight := true }

/-- The continuation of `processFrame` after `await yoloDetector.detect`
(videoProcessor.ts lines 32–48): on resolution `drawDetections` and the
`onDetection` callback run, the callback applying `updateStats` to the batch;
on rejection the catch logs the error; either way `requestAnimationFrame` then
schedules the next tick. There is no check of any stopped flag on this path.
A resolution arriving with no call in flight changes nothing. -/
def resolveDetect (s : PipelineState) (o : DetectOutcome) : PipelineState :=
  if s.inFlight = false then s
  else
    let s1 := { s with inFlight := false }
    let s2 :=
      match o with
      | DetectOutcome.success ds =>
        { s1 with
          renderCalls := s1.renderCalls + 1
          statsCalls := s1.statsCalls + 1
          stats := some (updateStats ds) }
      | DetectOutcome.failure =>
        { s1 with loggedErrors := s1.loggedErrors + 1 }
    { s2 with animationId := some s2.nextId, nextId := s2.nextId + 1 }

/-- `VideoProcessor.stopProcessing` (videoProcessor.ts lines 112–117): cancels
the pending animation-frame handle, if any; it does not touch an in-flight
detect call and sets no flag the resolution path would read. -/
def stopProcessing (s : PipelineState) : PipelineState :=
  match s.animationId with
  | some _ => { s with animationId := none }
  | none => s

/-- Map of the value produced by `detect` onto the promise outcome observed by
`processFrame`: a returned list resolves the promise, a thrown error rejects
it. -/
def outcomeOf : Except String (List Detection) → DetectOutcome
  | Except.ok ds => DetectOutcome.success ds
  | Except.error _ => DetectOutcome.failure

/-- A pipeline state with a detect call in flight and no pending handle, as
left by a fired tick awaiting its detection. -/
def c3State : PipelineState :=
  { animationId := none, inFlight := true, renderCalls := 0, statsCalls := 0,
    loggedErrors := 0, stats := none, nextId := 5 }

/-- C3 counterexample: starting from a state with a detect call in flight,
calling `stopProcessing` and then letting the in-flight call resolve still
invokes the renderer and the aggregator callback and schedules a further
tick — there is no discard-on-stale-state guard. -/
theorem stop_does_not_discard_inflight :
    ¬ ((resolveDetect (stopProcessing c3State) (DetectOutcome.success percentBatch)).renderCalls =
         c3State.renderCalls ∧
       (resolveDetect (stopProcessing c3State) (DetectOutcome.success percentBatch)).statsCalls =
         c3State.statsCalls ∧
       (resolveDetect (stopProcessing c3State) (DetectOutcome.success percentBatch)).animationId =
         none) := by
  intro hcl
  exact absurd hcl.1 (by decide)

/-- C3 amended: `stopProcessing` only cancels the pending scheduled tick; an
in-flight detect call that resolves afterwards still invokes the renderer and
the aggregator callback exactly once each, stores the new stats, and schedules
one further tick. -/
theorem resolveDetect_after_stop (s : PipelineState) (ds : List Detection)
    (h : s.inFlight = true) :
    (resolveDetect (stopProcessing s) (DetectOutcome.success ds)).renderCalls =
      s.renderCalls + 1 ∧
    (resolveDetect (stopProcessing s) (DetectOutcome.success ds)).statsCalls =
      s.statsCalls + 1 ∧
    (resolveDetect (stopProcessing s) (DetectOutcome.success ds)).stats =
      some (updateStats ds) ∧
    (resolveDetect (stopProcessing s) (DetectOutcome.success ds)).animationId =
      some s.nextId ∧
    (resolveDetect (stopProcessing s) (DetectOutcome.success ds)).inFlight = false := by
  cases hA : s.animationId <;>
    simp [stopProcessing, resolveDetect, h, hA]

/-- C3 witness: instantiation of the amended statement at a concrete in-flight
state and batch. -/
theorem resolveDetect_after_stop_witness :
    c3State.inFlight = true ∧
    ((resolveDetect (stopProcessing c3State) (DetectOutcome.success percentBatch)).renderCalls =
       c3State.renderCalls + 1 ∧
     (resolveDetect (stopProcessing c3State) (DetectOutcome.success percentBatch)).statsCalls =
       c3State.statsCalls + 1 ∧
     (resolveDetect (stopProcessing c3State) (DetectOutcome.success percentBatch)).stats =
       some (updateStats percentBatch) ∧
     (resolveDetect (stopProcessing c3State) (DetectOutcome.success percentBatch)).animationId =
       some c3State.nextId ∧
     (resolveDetect (stopProcessing c3State) (DetectOutcome.success percentBatch)).inFlight =
       false) :=
  ⟨rfl, resolveDetect_after_stop c3State percentBatch rfl⟩

/-- A paused (not ended) video element. -/
def pausedVideo : Video := { paused := true, ended := false }

/-- A pipeline state whose next tick is scheduled under handle 7. -/
def c5State : PipelineState :=
  { animationId := some 7, inFlight := false, renderCalls := 2, statsCalls := 2,
    loggedErrors := 0, stats := none, nextId := 8 }

/-- C5 counterexample: when the scheduled tick fires with the video paused, the
handle is consumed and `processFrame` returns before reaching
`requestAnimationFrame`: no next tick is scheduled, so the loop terminates
rather than continuing to schedule. -/
theorem paused_tick_stops_scheduling :
    (fireTick c5State pausedVideo).animationId = none ∧
    ¬ (fireTick c5State pausedVideo).animationId.isSome = true := by
  constructor
  · decide
  · decide

/-- C5 amended: a tick that fires while the video reports paused or ended
performs no detection and no render or stats update, and does not schedule a
further tick: the state is unchanged except that the fired handle is cleared,
so the loop ends until `processVideo` is called again. -/
theorem fireTick_paused_no_reschedule (s : PipelineState) (v : Video)
    (h : v.paused = true ∨ v.ended = true) :
    fireTick s v = { s with animationId := none } := by
  rcases s with ⟨aId, inF, rc, sc, le, st, ni⟩
  cases aId
  · simp [fireTick]
  · rcases h with h | h <;> simp [fireTick, h]

/-- C5 witness: instantiation of the amended statement at a concrete scheduled
state and a paused video. -/
theorem fireTick_paused_no_reschedule_witness :
    (pausedVideo.paused = true ∨ pausedVideo.ended = true) ∧
    fireTick c5State pausedVideo = { c5State with animationId := none } :=
  ⟨Or.inl rfl, fireTick_paused_no_reschedule c5State pausedVideo (Or.inl rfl)⟩

/-- A pipeline state with a detect call in flight, used for the fault tick. -/
def c6State : PipelineState :=
  { animationId := none, inFlight := true, renderCalls := 3, statsCalls := 3,
    loggedErrors := 0, stats := none, nextId := 9 }

/-- C6 counterexample: on an internal detect fault the detector does return the
empty batch instead of throwing, but the pipeline does not skip that tick's
render and stats update: `drawDetections` and `onDetection` are still invoked
with the empty batch and the stored stats are overwritten with the all-zero
record. -/
theorem fault_tick_still_updates_stats :
    (detect true true halfStream).1 = Except.ok [] ∧
    (detect true true halfStream).2 = true ∧
    ¬ ((resolveDetect c6State (outcomeOf (detect true true halfStream).1)).renderCalls =
         c6State.renderCalls ∧
       (resolveDetect c6State (outcomeOf (detect true true halfStream).1)).statsCalls =
         c6State.statsCalls) ∧
    (resolveDetect c6State (outcomeOf (detect true true halfStream).1)).stats =
      some (updateStats []) := by
  refine ⟨rfl, rfl, ?_, ?_⟩
  · intro hcl
    exact absurd hcl.1 (by decide)
  · rfl

/-- C6 amended: on an internal fault `detect` logs and returns the empty batch
(no exception reaches the caller) and the pipeline keeps running, but the
tick's render and stats update are not skipped: the renderer and the
`onDetection` callback are still invoked once with the empty batch (the stats
are reset to the empty-batch record) and the next tick is scheduled. The
render and stats update are skipped only when `detect` itself rejects, where
the tick-level catch logs and scheduling continues. -/
theorem detect_fault_empty_batch_still_rendered (s : PipelineState)
    (r : ℕ → ℚ) (h : s.inFlight = true) :
    (detect true true r).1 = Except.ok [] ∧
    (detect true true r).2 = true ∧
    (resolveDetect s (outcomeOf (detect true true r).1)).renderCalls =
      s.renderCalls + 1 ∧
    (resolveDetect s (outcomeOf (detect true true r).1)).statsCalls =
      s.statsCalls + 1 ∧
    (resolveDetect s (outcomeOf (detect true true r).1)).stats =
      some (updateStats []) ∧
    (resolveDetect s (outcomeOf (detect true true r).1)).animationId =
      some s.nextId ∧
    (resolveDetect s DetectOutcome.failure).renderCalls = s.renderCalls ∧
    (resolveDetect s DetectOutcome.failure).statsCalls = s.statsCalls ∧
    (resolveDetect s DetectOutcome.failure).stats = s.stats ∧
    (resolveDetect s DetectOutcome.failure).loggedErrors = s.loggedErrors + 1 ∧
    (resolveDetect s DetectOutcome.failure).animationId = some s.nextId := by
  simp [detect, outcomeOf, resolveDetect, h]

/-- C6 witness: instantiation of the amended statement at a concrete in-flight
state and the constant stream. -/
theorem detect_fault_empty_batch_still_rendered_witness :
    c6State.inFlight = true ∧
    ((detect true true halfStream).1 = Except.ok [] ∧
     (detect true true halfStream).2 = true ∧
     (resolveDetect c6State (outcomeOf (detect true true halfStream).1)).renderCalls =
       c6State.renderCalls + 1 ∧
     (resolveDetect c6State (outcomeOf (detect true true halfStream).1)).statsCalls =
       c6State.statsCalls + 1 ∧
     (resolveDetect c6State (outcomeOf (detect true true halfStream).1)).stats =
       some (updateStats []) ∧
     (resolveDetect c6State (outcomeOf (detect true true halfStream).1)).animationId =
       some c6State.nextId ∧
     (resolveDetect c6State DetectOutcome.failure).renderCalls = c6State.renderCalls ∧
     (resolveDetect c6State DetectOutcome.failure).statsCalls = c6State.statsCalls ∧
     (resolveDetect c6State DetectOutcome.failure).stats = c6State.stats ∧
     (resolveDetect c6State DetectOutcome.failure).loggedErrors =
       c6State.loggedErrors + 1 ∧
     (resolveDetect c6State DetectOutcome.failure).animationId =
       some c6State.nextId) :=
  ⟨rfl, detect_fault_empty_batch_still_rendered c6State halfStream rfl⟩

/-- A media track of the captured stream; `stopped` records whether
`track.stop()` has been called on it. -/
structure Track where
  id : ℕ
  stopped : Bool
deriving DecidableEq, Repr

/-- State of the `useWebcam` hook: the held stream as its list of tracks
(`streamRef`), the `isActive` flag and the `error` string. -/
structure WebcamState where
  stream : Option (List Track)
  isActive : Bool
  error : Option String
deriving DecidableEq, Repr

/-- `track.stop()` on one media track. -/
def stopTrack (t : Track) : Track := { t with stopped := true }

/-- `stopWebcam` from `useWebcam.ts` lines 34–41: if a stream is held, every
one of its tracks is stopped and the reference cleared; then `isActive` is set
false and `error` null. The second component is the stream's tracks as the
call leaves them. -/
def stopWebcam (s : WebcamState) : WebcamState × List Track :=
  match s.stream with
  | some ts =>
    ({ stream := none, isActive := false, error := none }, ts.map stopTrack)
  | none => ({ s with isActive := false, error := none }, [])

/-- C9: for a session holding a stream, `stopWebcam` stops every media track
of that stream and leaves the hook with the stream reference cleared,
`isActive` false and `error` null — independent of any pipeline state, which
`stopWebcam` does not read. -/
theorem stopWebcam_releases_all (s : WebcamState) (ts : List Track)
    (h : s.stream = some ts) :
    (stopWebcam s).1.stream = none ∧
    (stopWebcam s).1.isActive = false ∧
    (stopWebcam s).1.error = none ∧
    (stopWebcam s).2 = ts.map stopTrack ∧
    ∀ t ∈ (stopWebcam s).2, t.stopped = true := by
  simp only [stopWebcam, h]
  refine ⟨trivial, trivial, trivial, trivial, ?_⟩
  intro t ht
  obtain ⟨u, _, rfl⟩ := List.mem_map.mp ht
  rfl

/-- A webcam session holding a two-track stream. -/
def webcamSession : WebcamState :=
  { stream := some [{ id := 0, stopped := false }, { id := 1, stopped := false }],
    isActive := true, error := none }

/-- C9 witness: instantiation of the cleanup contract at a concrete two-track
session. -/
theorem stopWebcam_releases_all_witness :
    webcamSession.stream =
      some [{ id := 0, stopped := false }, { id := 1, stopped := false }] ∧
    ((stopWebcam webcamSession).1.stream = none ∧
     (stopWebcam webcamSession).1.isActive = false ∧
     (stopWebcam webcamSession).1.error = none ∧
     (stopWebcam webcamSession).2 =
       [{ id := 0, stopped := false }, { id := 1, stopped := false }].map stopTrack ∧
     ∀ t ∈ (stopWebcam webcamSession).2, t.stopped = true) :=
  ⟨rfl, stopWebcam_releases_all webcamSession
    [{ id := 0, stopped := false }, { id := 1, stopped := false }] rfl⟩
